import Mathlib

/-!
Verification of the voice-chat front-end (`gradio_app/app.py`).

The program records audio, uploads it with one HTTP POST, and surfaces the
returned bytes as a playable file.  The single request-handling operation is
`voice_chat` (app.py lines 18-124).  We embed it shallowly: outcomes of the
HTTP library, of the scipy WAV writer and of file output are inputs of the
model (an `Env`), the temp directory is an in-memory map from path strings to
byte lists (`FS`), and the Python exception flow is an `Except` computation
whose handlers mirror the try/except structure of the source.
-/

/-! ### Decimal rendering of a natural number

Python renders `int(time.time())` into the temp-file names with an f-string.
We model this decimal rendering explicitly (fuel-structural so that it
computes by `rfl`). -/

/-- Character of a single decimal digit, as Python renders it. -/
def digitChar (d : Nat) : Char :=
  match d with
  | 0 => '0' | 1 => '1' | 2 => '2' | 3 => '3' | 4 => '4'
  | 5 => '5' | 6 => '6' | 7 => '7' | 8 => '8' | _ => '9'

/-- Little-endian decimal digits of `n`; `fuel` bounds the recursion depth. -/
def natDecimalAux : Nat → Nat → List Nat
  | 0, _ => []
  | fuel + 1, n => if n < 10 then [n] else n % 10 :: natDecimalAux fuel (n / 10)

/-- Little-endian decimal digits of `n`. -/
def natDecimal (n : Nat) : List Nat := natDecimalAux (n + 1) n

/-- Value of a little-endian decimal digit list. -/
def ofDecimal : List Nat → Nat
  | [] => 0
  | d :: ds => d + 10 * ofDecimal ds

/-- Decimal rendering of a natural number, as the Python `str` of the
nonnegative int embedded in the temp-file names. -/
def pyStr (n : Nat) : String := String.mk ((natDecimal n).reverse.map digitChar)

/-! ### WAV byte stream

Modelled from the spec: the repository delegates WAV serialization to
`scipy.io.wavfile.write` (app.py line 38) and the spec describes it as
"a standard uncompressed WAV byte stream at the given sample rate"; neither
the encoder nor the read-back used by the round-trip property is code under
`src/`.  We model the standard 44-byte RIFF/WAVE header for mono 16-bit PCM
data followed by the little-endian samples, and a reader that recovers the
sample rate and the sample count from that header. -/

/-- Two little-endian bytes of `n`. -/
def le16 (n : Nat) : List Nat := [n % 256, n / 256 % 256]

/-- Four little-endian bytes of `n`. -/
def le32 (n : Nat) : List Nat :=
  [n % 256, n / 256 % 256, n / 65536 % 256, n / 16777216 % 256]

/-- Two bytes of one signed 16-bit sample (two-complement). -/
def sampleBytes (s : Int) : List Nat := le16 (s % 65536).toNat

/-- WAV byte stream for mono 16-bit PCM `xs` at sample rate `sr`:
RIFF chunk, fmt subchunk, data subchunk. -/
def wavEncode (sr : Nat) (xs : List Int) : List Nat :=
  [82, 73, 70, 70] ++ le32 (36 + 2 * xs.length)
    ++ [87, 65, 86, 69, 102, 109, 116, 32]
    ++ le32 16 ++ le16 1 ++ le16 1
    ++ le32 sr ++ le32 (2 * sr) ++ le16 2 ++ le16 16
    ++ [100, 97, 116, 97] ++ le32 (2 * xs.length)
    ++ xs.flatMap sampleBytes

/-- Little-endian 32-bit value stored at offset `i` of `bs`. -/
def readLE32 (bs : List Nat) (i : Nat) : Nat :=
  bs.getD i 0 + 256 * bs.getD (i + 1) 0 + 65536 * bs.getD (i + 2) 0
    + 16777216 * bs.getD (i + 3) 0

/-- Read back the sample rate and the sample count of a mono 16-bit WAV byte
stream: check the RIFF, WAVE and data tags and the header length, then decode
the rate field (offset 24) and the data-size field (offset 40). -/
def wavDecode (bs : List Nat) : Option (Nat × Nat) :=
  if 44 ≤ bs.length
      ∧ bs.getD 0 0 = 82 ∧ bs.getD 1 0 = 73 ∧ bs.getD 2 0 = 70 ∧ bs.getD 3 0 = 70
      ∧ bs.getD 8 0 = 87 ∧ bs.getD 9 0 = 65 ∧ bs.getD 10 0 = 86 ∧ bs.getD 11 0 = 69
      ∧ bs.getD 36 0 = 100 ∧ bs.getD 37 0 = 97 ∧ bs.getD 38 0 = 116 ∧ bs.getD 39 0 = 97
  then some (readLE32 bs 24, readLE32 bs 40 / 2)
  else none

/-! ### File-system model

The function touches the temp directory through `scipy.io.wavfile.write`,
`open(...,"wb")`, `os.path.exists` and `os.path.getsize`.  We model the
directory as a list of (path, content) entries where a write prepends. -/

/-- In-memory file system: paths mapped to byte contents. -/
structure FS where
  entries : List (String × List Nat)
deriving DecidableEq

/-- Write `c` at path `p` (shadows any earlier entry). -/
def FS.write (fs : FS) (p : String) (c : List Nat) : FS := ⟨(p, c) :: fs.entries⟩

/-- Content stored at path `p`, if any. -/
def FS.read? (fs : FS) (p : String) : Option (List Nat) :=
  (fs.entries.find? fun e => e.1 == p).map (·.2)

/-- Model of `os.path.exists`. -/
def FS.pathExists (fs : FS) (p : String) : Bool := (fs.read? p).isSome

/-- Model of `os.path.getsize` (0 when the path is absent). -/
def FS.getsize (fs : FS) (p : String) : Nat := ((fs.read? p).getD []).length

/-! ### The `voice_chat` embedding (app.py lines 14-124) -/

/-- Endpoint constant (app.py line 14). -/
def API_URL : String := "http://localhost:8000/voice-chat"

/-- Request timeout in seconds (app.py line 15). -/
def REQUEST_TIMEOUT : Nat := 300

/-- Model of `tempfile.gettempdir()`: the temp directory of the host, an
opaque constant in this model. -/
def gettempdir : String := "/tmp"

/-- Input temp-file name `input_<unix-timestamp>.wav` (app.py line 35). -/
def audio_filename (t : Nat) : String := "input_" ++ pyStr t ++ ".wav"

/-- Input temp-file path (app.py line 36, `os.path.join` on a POSIX host). -/
def audio_path (t : Nat) : String := gettempdir ++ "/" ++ audio_filename t

/-- Output temp-file path `tts_output_<unix-timestamp>.wav` (app.py line 90). -/
def output_audio_path (t : Nat) : String :=
  gettempdir ++ "/" ++ ("tts_output_" ++ pyStr t ++ ".wav")

/-- Outcome of the one `requests.post` call (app.py lines 52-56).  A response
carries the HTTP status, the body bytes, and an oracle for the library JSON
parse of the body used on the non-200 path (app.py lines 113-114):
`none` when `response.json()` or the `message` lookup raises, `some none`
when it parses with no `message` field, `some (some m)` when the field
holds `m`. -/
inductive HttpResult where
  | timeout
  | connError
  | otherExc (msg : String)
  | resp (status : Nat) (body : List Nat) (jsonMsg : Option (Option String))
deriving DecidableEq

/-- Environment of one `voice_chat` run: the two `int(time.time())` readings
(app.py lines 35 and 90), an oracle for an exception raised while saving the
recording with `scipy.io.wavfile.write` (app.py line 38, reaching the outer
handler at line 121), the HTTP outcome, and an oracle for an exception while
writing the response file (app.py lines 93-94, caught at line 103). -/
structure Env where
  time1 : Nat
  time2 : Nat
  scipyExc : Option String
  http : HttpResult
  writeExc : Option String
deriving DecidableEq

/-- One issued HTTP POST (app.py lines 51-56): URL, multipart field name,
filename, declared content type, timeout seconds, uploaded bytes. -/
structure Request where
  url : String
  fieldName : String
  filename : String
  contentType : String
  timeoutSecs : Nat
  content : List Nat
deriving DecidableEq

/-- Observable outcome of one `voice_chat` run: the final temp directory, the
issued POSTs, and the returned `(path, status message)` pair. -/
structure RunResult where
  fs : FS
  requests : List Request
  path : Option String
  msg : String

/-- Message detail of the non-200 branch (app.py lines 112-116):
`response.json()` is consulted only for a non-empty body; a parse failure or
a missing `message` field falls back to the bare status code. -/
def errDetail (status : Nat) (body : List Nat) (jsonMsg : Option (Option String)) : String :=
  if body = [] then "Kode status: " ++ pyStr status
  else
    match jsonMsg with
    | some (some m) => m
    | _ => "Kode status: " ++ pyStr status

/-- Body of the outer `try` of `voice_chat` (app.py lines 28-119).  An
`Except.error` is an exception escaping to the outer handler (line 121); the
inner try/except blocks (lines 48-73 and 92-106) are handled in place. -/
def voice_chat_body (a : Nat × List Int) (env : Env) (fs : FS) : Except String RunResult :=
  let sr := a.1
  let audio_data := a.2
  let fname := audio_filename env.time1
  let apath := gettempdir ++ "/" ++ fname
  match env.scipyExc with
  | some e => .error e
  | none =>
    let fs1 := fs.write apath (wavEncode sr audio_data)
    if fs1.pathExists apath then
      let req : Request :=
        ⟨API_URL, "file", fname, "audio/wav", REQUEST_TIMEOUT, (fs1.read? apath).getD []⟩
      match env.http with
      | .timeout => .ok ⟨fs1, [req], none, "🕒 Waktu habis. Server terlalu lama merespons."⟩
      | .connError =>
          .ok ⟨fs1, [req], none,
            "🔌 Koneksi ke server gagal. Pastikan server aktif di http://localhost:8000"⟩
      | .otherExc e => .ok ⟨fs1, [req], none, "🔴 Kesalahan: " ++ e⟩
      | .resp status body jsonMsg =>
        if status = 200 then
          if body = [] then
            .ok ⟨fs1, [req], none, "⚠️ Server mengembalikan respons kosong"⟩
          else
            let opath := output_audio_path env.time2
            match env.writeExc with
            | some e => .ok ⟨fs1, [req], none, "⚠️ Gagal menyimpan file audio respons: " ++ e⟩
            | none =>
              let fs2 := fs1.write opath body
              if !fs2.pathExists opath || fs2.getsize opath == 0 then
                .ok ⟨fs2, [req], none, "⚠️ File audio respons kosong atau tidak valid"⟩
              else
                .ok ⟨fs2, [req], some opath, "✅ Jawaban siap diputar"⟩
        else
          .ok ⟨fs1, [req], none, "⚠️ Error Server: " ++ errDetail status body jsonMsg⟩
    else
      .ok ⟨fs1, [], none, "⚠️ Gagal menyimpan rekaman"⟩

/-- The `voice_chat` function (app.py lines 18-124): a `None` recording
returns at once (lines 19-20); otherwise the body runs under the outer
handler, which converts any escaping exception into a returned pair
(lines 121-124). -/
def voice_chat (audio : Option (Nat × List Int)) (env : Env) (fs : FS) : RunResult :=
  match audio with
  | none => ⟨fs, [], none, "⚠️ Rekaman suara diperlukan"⟩
  | some a =>
    match voice_chat_body a env fs with
    | .ok r => r
    | .error e => ⟨fs, [], none, "⚠️ Kesalahan sistem: " ++ e⟩

/-- Request record actually produced on every run that reaches the POST. -/
def mkReq (t : Nat) (sr : Nat) (d : List Int) : Request :=
  ⟨API_URL, "file", audio_filename t, "audio/wav", REQUEST_TIMEOUT, wavEncode sr d⟩

/-! ### File-system lemmas -/

theorem FS.read_write (fs : FS) (p : String) (c : List Nat) :
    (fs.write p c).read? p = some c := by
  simp only [FS.write, FS.read?]
  rw [List.find?_cons_of_pos]
  · rfl
  · exact beq_self_eq_true p

theorem FS.read_write_ne (fs : FS) (p q : String) (c : List Nat) (h : q ≠ p) :
    (fs.write q c).read? p = fs.read? p := by
  simp only [FS.write, FS.read?]
  rw [List.find?_cons_of_neg]
  simp [h]

theorem FS.pathExists_write (fs : FS) (p : String) (c : List Nat) :
    (fs.write p c).pathExists p = true := by
  simp [FS.pathExists, FS.read_write]

theorem FS.getsize_write (fs : FS) (p : String) (c : List Nat) :
    (fs.write p c).getsize p = c.length := by
  simp [FS.getsize, FS.read_write]

/-! ### Injectivity of the decimal temp-file names -/

theorem ofDecimal_natDecimalAux (fuel : Nat) : ∀ n : Nat, n < fuel →
    ofDecimal (natDecimalAux fuel n) = n := by
  induction fuel with
  | zero => omega
  | succ f ih =>
    intro n hn
    rw [natDecimalAux]
    by_cases h10 : n < 10
    · simp [h10, ofDecimal]
    · rw [if_neg h10]
      simp only [ofDecimal]
      rw [ih (n / 10) (by omega)]
      omega

theorem natDecimalAux_lt (fuel : Nat) : ∀ n : Nat, ∀ d ∈ natDecimalAux fuel n, d < 10 := by
  induction fuel with
  | zero => simp [natDecimalAux]
  | succ f ih =>
    intro n d hd
    rw [natDecimalAux] at hd
    by_cases h10 : n < 10
    · rw [if_pos h10] at hd
      simp only [List.mem_singleton] at hd
      omega
    · rw [if_neg h10] at hd
      rcases List.mem_cons.mp hd with h | h
      · omega
      · exact ih _ d h

theorem digitChar_inj (a b : Nat) (ha : a < 10) (hb : b < 10)
    (h : digitChar a = digitChar b) : a = b := by
  interval_cases a <;> interval_cases b <;> revert h <;> decide

theorem map_digitChar_inj (l1 : List Nat) : ∀ l2 : List Nat,
    (∀ d ∈ l1, d < 10) → (∀ d ∈ l2, d < 10) →
    l1.map digitChar = l2.map digitChar → l1 = l2 := by
  induction l1 with
  | nil =>
    intro l2 _ _ h
    cases l2 with
    | nil => rfl
    | cons b t => simp at h
  | cons a t ih =>
    intro l2 h1 h2 h
    cases l2 with
    | nil => simp at h
    | cons b t2 =>
      simp only [List.map_cons, List.cons.injEq] at h
      have hab := digitChar_inj a b (h1 a (by simp)) (h2 b (by simp)) h.1
      subst hab
      rw [ih t2 (fun d hd => h1 d (by simp [hd])) (fun d hd => h2 d (by simp [hd])) h.2]

theorem string_ext (a b : String) (h : a.data = b.data) : a = b := by
  cases a; cases b; simp_all

theorem pyStr_inj (m n : Nat) (h : pyStr m = pyStr n) : m = n := by
  have hd : (natDecimal m).reverse.map digitChar = (natDecimal n).reverse.map digitChar :=
    congrArg String.data h
  have hrev := map_digitChar_inj _ _
    (fun d hmem => natDecimalAux_lt _ _ d (List.mem_reverse.mp hmem))
    (fun d hmem => natDecimalAux_lt _ _ d (List.mem_reverse.mp hmem)) hd
  have hdec : natDecimal m = natDecimal n := by
    have := congrArg List.reverse hrev
    simpa using this
  have h1 : ofDecimal (natDecimal m) = m := ofDecimal_natDecimalAux (m + 1) m (by omega)
  have h2 : ofDecimal (natDecimal n) = n := ofDecimal_natDecimalAux (n + 1) n (by omega)
  rw [← h1, hdec, h2]

theorem output_audio_path_inj (m n : Nat) (h : output_audio_path m = output_audio_path n) :
    m = n := by
  apply pyStr_inj m n
  have hd := congrArg String.data h
  simp only [output_audio_path, String.data_append, List.append_assoc] at hd
  have h1 := List.append_cancel_left hd
  have h2 := List.append_cancel_left h1
  have h3 := List.append_cancel_left h2
  exact string_ext _ _ (List.append_cancel_right h3)

theorem audio_path_inj (m n : Nat) (h : audio_path m = audio_path n) : m = n := by
  apply pyStr_inj m n
  have hd := congrArg String.data h
  simp only [audio_path, audio_filename, String.data_append, List.append_assoc] at hd
  have h1 := List.append_cancel_left hd
  have h2 := List.append_cancel_left h1
  have h3 := List.append_cancel_left h2
  exact string_ext _ _ (List.append_cancel_right h3)

theorem audio_path_ne_output_audio_path (m n : Nat) : audio_path m ≠ output_audio_path n := by
  intro h
  have h5 : (audio_path m).data.getD 5 ' ' = (output_audio_path n).data.getD 5 ' ' :=
    congrArg (fun s => s.data.getD 5 ' ') h
  have e1 : (audio_path m).data.getD 5 ' ' = 'i' := rfl
  have e2 : (output_audio_path n).data.getD 5 ' ' = 't' := rfl
  rw [e1, e2] at h5
  exact absurd h5 (by decide)

/-! ### Evaluation of the branches of `voice_chat` -/

theorem run_scipyExc (sr : Nat) (d : List Int) (t1 t2 : Nat) (e : String)
    (http : HttpResult) (wr : Option String) (fs : FS) :
    voice_chat (some (sr, d)) ⟨t1, t2, some e, http, wr⟩ fs
      = ⟨fs, [], none, "⚠️ Kesalahan sistem: " ++ e⟩ := rfl

theorem run_timeout (sr : Nat) (d : List Int) (t1 t2 : Nat) (wr : Option String) (fs : FS) :
    voice_chat (some (sr, d)) ⟨t1, t2, none, .timeout, wr⟩ fs
      = ⟨fs.write (audio_path t1) (wavEncode sr d), [mkReq t1 sr d], none,
          "🕒 Waktu habis. Server terlalu lama merespons."⟩ := by
  simp [voice_chat, voice_chat_body, audio_path, mkReq, FS.pathExists_write, FS.read_write]

theorem run_connError (sr : Nat) (d : List Int) (t1 t2 : Nat) (wr : Option String) (fs : FS) :
    voice_chat (some (sr, d)) ⟨t1, t2, none, .connError, wr⟩ fs
      = ⟨fs.write (audio_path t1) (wavEncode sr d), [mkReq t1 sr d], none,
          "🔌 Koneksi ke server gagal. Pastikan server aktif di http://localhost:8000"⟩ := by
  simp [voice_chat, voice_chat_body, audio_path, mkReq, FS.pathExists_write, FS.read_write]

theorem run_otherExc (sr : Nat) (d : List Int) (t1 t2 : Nat) (e : String)
    (wr : Option String) (fs : FS) :
    voice_chat (some (sr, d)) ⟨t1, t2, none, .otherExc e, wr⟩ fs
      = ⟨fs.write (audio_path t1) (wavEncode sr d), [mkReq t1 sr d], none,
          "🔴 Kesalahan: " ++ e⟩ := by
  simp [voice_chat, voice_chat_body, audio_path, mkReq, FS.pathExists_write, FS.read_write]

theorem run_non200 (sr : Nat) (d : List Int) (t1 t2 : Nat) (wr : Option String) (fs : FS)
    (status : Nat) (body : List Nat) (jm : Option (Option String)) (h : status ≠ 200) :
    voice_chat (some (sr, d)) ⟨t1, t2, none, .resp status body jm, wr⟩ fs
      = ⟨fs.write (audio_path t1) (wavEncode sr d), [mkReq t1 sr d], none,
          "⚠️ Error Server: " ++ errDetail status body jm⟩ := by
  simp [voice_chat, voice_chat_body, audio_path, mkReq, FS.pathExists_write, FS.read_write, h]

theorem run_200_empty (sr : Nat) (d : List Int) (t1 t2 : Nat) (wr : Option String) (fs : FS)
    (jm : Option (Option String)) :
    voice_chat (some (sr, d)) ⟨t1, t2, none, .resp 200 [] jm, wr⟩ fs
      = ⟨fs.write (audio_path t1) (wavEncode sr d), [mkReq t1 sr d], none,
          "⚠️ Server mengembalikan respons kosong"⟩ := by
  simp [voice_chat, voice_chat_body, audio_path, mkReq, FS.pathExists_write, FS.read_write]

theorem run_200_writeExc (sr : Nat) (d : List Int) (t1 t2 : Nat) (fs : FS)
    (body : List Nat) (jm : Option (Option String)) (e : String) (hb : body ≠ []) :
    voice_chat (some (sr, d)) ⟨t1, t2, none, .resp 200 body jm, some e⟩ fs
      = ⟨fs.write (audio_path t1) (wavEncode sr d), [mkReq t1 sr d], none,
          "⚠️ Gagal menyimpan file audio respons: " ++ e⟩ := by
  simp [voice_chat, voice_chat_body, audio_path, mkReq, FS.pathExists_write, FS.read_write, hb]

theorem run_200_success (sr : Nat) (d : List Int) (t1 t2 : Nat) (fs : FS)
    (body : List Nat) (jm : Option (Option String)) (hb : body ≠ []) :
    voice_chat (some (sr, d)) ⟨t1, t2, none, .resp 200 body jm, none⟩ fs
      = ⟨(fs.write (audio_path t1) (wavEncode sr d)).write (output_audio_path t2) body,
          [mkReq t1 sr d], some (output_audio_path t2), "✅ Jawaban siap diputar"⟩ := by
  simp [voice_chat, voice_chat_body, audio_path, mkReq, FS.pathExists_write, FS.read_write,
    FS.getsize_write, hb]

/-- Helper: a returned path is only ever the just-written output file, which
exists, is non-empty, and comes with the success message. -/
theorem path_some_sound (audio : Option (Nat × List Int)) (env : Env) (fs : FS) (p : String)
    (hp : (voice_chat audio env fs).path = some p) :
    (voice_chat audio env fs).fs.pathExists p = true
    ∧ (voice_chat audio env fs).fs.getsize p ≠ 0
    ∧ (voice_chat audio env fs).msg = "✅ Jawaban siap diputar" := by
  cases audio with
  | none => simp [voice_chat] at hp
  | some a =>
    obtain ⟨sr, d⟩ := a
    obtain ⟨t1, t2, sc, http, wr⟩ := env
    cases sc with
    | some e => rw [run_scipyExc] at hp; simp at hp
    | none =>
      cases http with
      | timeout => rw [run_timeout] at hp; simp at hp
      | connError => rw [run_connError] at hp; simp at hp
      | otherExc e => rw [run_otherExc] at hp; simp at hp
      | resp status body jm =>
        by_cases hstat : status = 200
        · subst hstat
          by_cases hb : body = []
          · subst hb; rw [run_200_empty] at hp; simp at hp
          · cases wr with
            | some e => rw [run_200_writeExc sr d t1 t2 fs body jm e hb] at hp; simp at hp
            | none =>
              rw [run_200_success sr d t1 t2 fs body jm hb] at hp ⊢
              have hpe : p = output_audio_path t2 := by simpa using hp.symm
              subst hpe
              refine ⟨FS.pathExists_write _ _ _, ?_, rfl⟩
              rw [FS.getsize_write]
              simpa using hb
        · rw [run_non200 sr d t1 t2 wr fs status body jm hstat] at hp; simp at hp

/-- C10: when the audio argument is `None`, `voice_chat` returns at once the
pair (no path, warning message): the file system is untouched and no HTTP
request is issued. -/
theorem voice_chat_none_audio (env : Env) (fs : FS) :
    voice_chat none env fs = ⟨fs, [], none, "⚠️ Rekaman suara diperlukan"⟩ := rfl

/-- C4: a transport-level timeout of the POST yields (no path, a message that
the server took too long), no exception escapes, and exactly one request was
attempted (no retry). -/
theorem voice_chat_timeout_result (sr : Nat) (d : List Int) (env : Env) (fs : FS)
    (hsc : env.scipyExc = none) (hhttp : env.http = HttpResult.timeout) :
    (voice_chat (some (sr, d)) env fs).path = none
    ∧ (voice_chat (some (sr, d)) env fs).msg = "🕒 Waktu habis. Server terlalu lama merespons."
    ∧ (voice_chat (some (sr, d)) env fs).requests.length = 1 := by
  obtain ⟨t1, t2, sc, http, wr⟩ := env
  subst hsc; subst hhttp
  rw [run_timeout]
  exact ⟨rfl, rfl, rfl⟩

/-- Witness for C4: the timeout branch at a concrete input. -/
theorem voice_chat_timeout_result_witness :
    (Env.mk 1 2 none HttpResult.timeout none).scipyExc = none
    ∧ (Env.mk 1 2 none HttpResult.timeout none).http = HttpResult.timeout
    ∧ (voice_chat (some (8000, [0])) ⟨1, 2, none, HttpResult.timeout, none⟩ ⟨[]⟩).path = none
    ∧ (voice_chat (some (8000, [0])) ⟨1, 2, none, HttpResult.timeout, none⟩ ⟨[]⟩).msg
        = "🕒 Waktu habis. Server terlalu lama merespons." :=
  ⟨rfl, rfl, (voice_chat_timeout_result 8000 [0] ⟨1, 2, none, HttpResult.timeout, none⟩ ⟨[]⟩
    rfl rfl).1,
   (voice_chat_timeout_result 8000 [0] ⟨1, 2, none, HttpResult.timeout, none⟩ ⟨[]⟩
    rfl rfl).2.1⟩

/-- C5: a transport-level connection failure yields (no path, a message that
names the expected server address, a prefix of the configured endpoint
`API_URL`), with a single attempted request (no retry). -/
theorem voice_chat_connError_result (sr : Nat) (d : List Int) (env : Env) (fs : FS)
    (hsc : env.scipyExc = none) (hhttp : env.http = HttpResult.connError) :
    (voice_chat (some (sr, d)) env fs).path = none
    ∧ (voice_chat (some (sr, d)) env fs).msg
        = "🔌 Koneksi ke server gagal. Pastikan server aktif di " ++ "http://localhost:8000"
    ∧ API_URL = "http://localhost:8000" ++ "/voice-chat"
    ∧ (voice_chat (some (sr, d)) env fs).requests.length = 1 := by
  obtain ⟨t1, t2, sc, http, wr⟩ := env
  subst hsc; subst hhttp
  rw [run_connError]
  exact ⟨rfl, rfl, by decide, rfl⟩

/-- Witness for C5: the connection-failure branch at a concrete input. -/
theorem voice_chat_connError_result_witness :
    (Env.mk 1 2 none HttpResult.connError none).scipyExc = none
    ∧ (Env.mk 1 2 none HttpResult.connError none).http = HttpResult.connError
    ∧ (voice_chat (some (8000, [0])) ⟨1, 2, none, HttpResult.connError, none⟩ ⟨[]⟩).msg
        = "🔌 Koneksi ke server gagal. Pastikan server aktif di " ++ "http://localhost:8000" :=
  ⟨rfl, rfl, (voice_chat_connError_result 8000 [0] ⟨1, 2, none, HttpResult.connError, none⟩ ⟨[]⟩
    rfl rfl).2.1⟩

/-- C6: HTTP 200 with an empty body yields (no path, the empty-response
message) and no output file is written: the run adds only the input temp
file, and the content seen at any output path is unchanged. -/
theorem voice_chat_empty_body_result (sr : Nat) (d : List Int) (env : Env) (fs : FS)
    (jm : Option (Option String))
    (hsc : env.scipyExc = none) (hhttp : env.http = HttpResult.resp 200 [] jm) :
    (voice_chat (some (sr, d)) env fs).path = none
    ∧ (voice_chat (some (sr, d)) env fs).msg = "⚠️ Server mengembalikan respons kosong"
    ∧ (voice_chat (some (sr, d)) env fs).fs = fs.write (audio_path env.time1) (wavEncode sr d)
    ∧ ∀ t : Nat, (voice_chat (some (sr, d)) env fs).fs.read? (output_audio_path t)
        = fs.read? (output_audio_path t) := by
  obtain ⟨t1, t2, sc, http, wr⟩ := env
  subst hsc; subst hhttp
  rw [run_200_empty]
  refine ⟨rfl, rfl, rfl, fun t => ?_⟩
  exact FS.read_write_ne _ _ _ _ (audio_path_ne_output_audio_path t1 t)

/-- Witness for C6: the empty-body branch at a concrete input. -/
theorem voice_chat_empty_body_result_witness :
    (Env.mk 1 2 none (HttpResult.resp 200 [] none) none).scipyExc = none
    ∧ (Env.mk 1 2 none (HttpResult.resp 200 [] none) none).http = HttpResult.resp 200 [] none
    ∧ (voice_chat (some (8000, [0])) ⟨1, 2, none, HttpResult.resp 200 [] none, none⟩ ⟨[]⟩).path
        = none
    ∧ (voice_chat (some (8000, [0])) ⟨1, 2, none, HttpResult.resp 200 [] none, none⟩ ⟨[]⟩).msg
        = "⚠️ Server mengembalikan respons kosong" :=
  ⟨rfl, rfl,
   (voice_chat_empty_body_result 8000 [0] ⟨1, 2, none, HttpResult.resp 200 [] none, none⟩ ⟨[]⟩
     none rfl rfl).1,
   (voice_chat_empty_body_result 8000 [0] ⟨1, 2, none, HttpResult.resp 200 [] none, none⟩ ⟨[]⟩
     none rfl rfl).2.1⟩

/-- C7: a non-200 response yields (no path, a server-error message); when the
body is non-empty and the library parse finds a `message` field, the returned
message carries its value; when the body is empty, the parse fails, or the
field is absent, it falls back to the bare status code. -/
theorem voice_chat_non200_result (sr : Nat) (d : List Int) (env : Env) (fs : FS)
    (status : Nat) (body : List Nat) (jm : Option (Option String))
    (hsc : env.scipyExc = none) (hhttp : env.http = HttpResult.resp status body jm)
    (hstat : status ≠ 200) :
    (voice_chat (some (sr, d)) env fs).path = none
    ∧ (∀ m : String, body ≠ [] → jm = some (some m) →
        (voice_chat (some (sr, d)) env fs).msg = "⚠️ Error Server: " ++ m)
    ∧ (body = [] →
        (voice_chat (some (sr, d)) env fs).msg
          = "⚠️ Error Server: " ++ ("Kode status: " ++ pyStr status))
    ∧ ((jm = some none ∨ jm = none) →
        (voice_chat (some (sr, d)) env fs).msg
          = "⚠️ Error Server: " ++ ("Kode status: " ++ pyStr status)) := by
  obtain ⟨t1, t2, sc, http, wr⟩ := env
  subst hsc; subst hhttp
  rw [run_non200 sr d t1 t2 wr fs status body jm hstat]
  refine ⟨rfl, ?_, ?_, ?_⟩
  · intro m hb hjm
    subst hjm
    simp [errDetail, hb]
  · intro hb
    subst hb
    simp [errDetail]
  · rintro (hjm | hjm) <;> subst hjm <;> by_cases hb : body = [] <;> simp [errDetail, hb]

/-- Witness for C7: a 500 response whose body parses with message overload. -/
theorem voice_chat_non200_result_witness :
    (Env.mk 1 2 none (HttpResult.resp 500 [1] (some (some "overload"))) none).scipyExc = none
    ∧ (Env.mk 1 2 none (HttpResult.resp 500 [1] (some (some "overload"))) none).http
        = HttpResult.resp 500 [1] (some (some "overload"))
    ∧ (500 : Nat) ≠ 200
    ∧ (voice_chat (some (8000, [0]))
        ⟨1, 2, none, HttpResult.resp 500 [1] (some (some "overload")), none⟩ ⟨[]⟩).msg
        = "⚠️ Error Server: " ++ "overload" :=
  ⟨rfl, rfl, by decide,
   (voice_chat_non200_result 8000 [0]
     ⟨1, 2, none, HttpResult.resp 500 [1] (some (some "overload")), none⟩ ⟨[]⟩
     500 [1] (some (some "overload")) rfl rfl (by decide)).2.1 "overload" (by decide) rfl⟩

/-- C1: on HTTP 200 with a non-empty body of N bytes and a successful local
write, `voice_chat` returns the path of the freshly written output file, which
holds exactly those N bytes, with the success message; and in general every
returned non-None path points at an existing, non-empty file. -/
theorem voice_chat_success_persists (sr : Nat) (d : List Int) (env : Env) (fs : FS)
    (body : List Nat) (jm : Option (Option String))
    (hsc : env.scipyExc = none) (hhttp : env.http = HttpResult.resp 200 body jm)
    (hb : body ≠ []) (hwr : env.writeExc = none) :
    ((voice_chat (some (sr, d)) env fs).path = some (output_audio_path env.time2)
      ∧ (voice_chat (some (sr, d)) env fs).msg = "✅ Jawaban siap diputar"
      ∧ (voice_chat (some (sr, d)) env fs).fs.read? (output_audio_path env.time2) = some body
      ∧ (voice_chat (some (sr, d)) env fs).fs.getsize (output_audio_path env.time2)
          = body.length)
    ∧ ∀ (audio : Option (Nat × List Int)) (env2 : Env) (fs2 : FS) (p : String),
        (voice_chat audio env2 fs2).path = some p →
        (voice_chat audio env2 fs2).fs.pathExists p = true
        ∧ (voice_chat audio env2 fs2).fs.getsize p ≠ 0 := by
  refine ⟨?_, fun audio env2 fs2 p hp =>
    ⟨(path_some_sound audio env2 fs2 p hp).1, (path_some_sound audio env2 fs2 p hp).2.1⟩⟩
  obtain ⟨t1, t2, sc, http, wr⟩ := env
  subst hsc; subst hhttp; subst hwr
  rw [run_200_success sr d t1 t2 fs body jm hb]
  exact ⟨rfl, rfl, FS.read_write _ _ _, FS.getsize_write _ _ _⟩

/-- Witness for C1: a 200 response with a two-byte body, persisted. -/
theorem voice_chat_success_persists_witness :
    (Env.mk 1 2 none (HttpResult.resp 200 [5, 6] none) none).scipyExc = none
    ∧ (Env.mk 1 2 none (HttpResult.resp 200 [5, 6] none) none).http
        = HttpResult.resp 200 [5, 6] none
    ∧ ([5, 6] : List Nat) ≠ []
    ∧ (voice_chat (some (8000, [0])) ⟨1, 2, none, HttpResult.resp 200 [5, 6] none, none⟩
        ⟨[]⟩).path = some (output_audio_path 2)
    ∧ (voice_chat (some (8000, [0])) ⟨1, 2, none, HttpResult.resp 200 [5, 6] none, none⟩
        ⟨[]⟩).fs.read? (output_audio_path 2) = some [5, 6] :=
  ⟨rfl, rfl, by decide,
   (voice_chat_success_persists 8000 [0] ⟨1, 2, none, HttpResult.resp 200 [5, 6] none, none⟩
     ⟨[]⟩ [5, 6] none rfl rfl (by decide) rfl).1.1,
   (voice_chat_success_persists 8000 [0] ⟨1, 2, none, HttpResult.resp 200 [5, 6] none, none⟩
     ⟨[]⟩ [5, 6] none rfl rfl (by decide) rfl).1.2.2.1⟩

/-- C2: for every input (a `None` recording included) and every outcome of the
request and of file output, `voice_chat` returns a pair and no exception
escapes: each failure category ends as (no path, one of the user-facing
status strings), and the only other outcome is the success pair. -/
theorem voice_chat_no_exception_escape (audio : Option (Nat × List Int)) (env : Env) (fs : FS) :
    ((voice_chat audio env fs).path.isSome = true
      ∧ (voice_chat audio env fs).msg = "✅ Jawaban siap diputar")
    ∨ ((voice_chat audio env fs).path = none
      ∧ ((voice_chat audio env fs).msg = "⚠️ Rekaman suara diperlukan"
        ∨ (voice_chat audio env fs).msg = "⚠️ Gagal menyimpan rekaman"
        ∨ (voice_chat audio env fs).msg = "🕒 Waktu habis. Server terlalu lama merespons."
        ∨ (voice_chat audio env fs).msg
            = "🔌 Koneksi ke server gagal. Pastikan server aktif di http://localhost:8000"
        ∨ (∃ e, (voice_chat audio env fs).msg = "🔴 Kesalahan: " ++ e)
        ∨ (voice_chat audio env fs).msg = "⚠️ Server mengembalikan respons kosong"
        ∨ (∃ e, (voice_chat audio env fs).msg = "⚠️ Gagal menyimpan file audio respons: " ++ e)
        ∨ (voice_chat audio env fs).msg = "⚠️ File audio respons kosong atau tidak valid"
        ∨ (∃ s, (voice_chat audio env fs).msg = "⚠️ Error Server: " ++ s)
        ∨ (∃ e, (voice_chat audio env fs).msg = "⚠️ Kesalahan sistem: " ++ e))) := by
  cases audio with
  | none => exact Or.inr ⟨rfl, Or.inl rfl⟩
  | some a =>
    obtain ⟨sr, d⟩ := a
    obtain ⟨t1, t2, sc, http, wr⟩ := env
    cases sc with
    | some e =>
      rw [run_scipyExc]
      exact Or.inr ⟨rfl, Or.inr (Or.inr (Or.inr (Or.inr (Or.inr (Or.inr (Or.inr (Or.inr
        (Or.inr ⟨e, rfl⟩))))))))⟩
    | none =>
      cases http with
      | timeout =>
        rw [run_timeout]
        exact Or.inr ⟨rfl, Or.inr (Or.inr (Or.inl rfl))⟩
      | connError =>
        rw [run_connError]
        exact Or.inr ⟨rfl, Or.inr (Or.inr (Or.inr (Or.inl rfl)))⟩
      | otherExc e =>
        rw [run_otherExc]
        exact Or.inr ⟨rfl, Or.inr (Or.inr (Or.inr (Or.inr (Or.inl ⟨e, rfl⟩))))⟩
      | resp status body jm =>
        by_cases hstat : status = 200
        · subst hstat
          by_cases hb : body = []
          · subst hb
            rw [run_200_empty]
            exact Or.inr ⟨rfl, Or.inr (Or.inr (Or.inr (Or.inr (Or.inr (Or.inl rfl)))))⟩
          · cases wr with
            | some e =>
              rw [run_200_writeExc sr d t1 t2 fs body jm e hb]
              exact Or.inr ⟨rfl, Or.inr (Or.inr (Or.inr (Or.inr (Or.inr (Or.inr
                (Or.inl ⟨e, rfl⟩))))))⟩
            | none =>
              rw [run_200_success sr d t1 t2 fs body jm hb]
              exact Or.inl ⟨rfl, rfl⟩
        · rw [run_non200 sr d t1 t2 wr fs status body jm hstat]
          exact Or.inr ⟨rfl, Or.inr (Or.inr (Or.inr (Or.inr (Or.inr (Or.inr (Or.inr (Or.inr
            (Or.inl ⟨errDetail status body jm, rfl⟩))))))))⟩

/-- C8: every submission that returns a playable path issued exactly one POST,
to the configured endpoint, with multipart field `file`, the filename
`input_<unix-timestamp>.wav`, content type `audio/wav`, the 300-second
timeout, and the WAV bytes of the recording as payload. -/
theorem voice_chat_post_contract (sr : Nat) (d : List Int) (env : Env) (fs : FS)
    (hp : (voice_chat (some (sr, d)) env fs).path.isSome = true) :
    (voice_chat (some (sr, d)) env fs).requests
      = [{ url := API_URL, fieldName := "file",
           filename := "input_" ++ pyStr env.time1 ++ ".wav",
           contentType := "audio/wav", timeoutSecs := REQUEST_TIMEOUT,
           content := wavEncode sr d }]
    ∧ REQUEST_TIMEOUT = 300 := by
  refine ⟨?_, rfl⟩
  obtain ⟨t1, t2, sc, http, wr⟩ := env
  cases sc with
  | some e => rw [run_scipyExc] at hp; simp at hp
  | none =>
    cases http with
    | timeout => rw [run_timeout] at hp; simp at hp
    | connError => rw [run_connError] at hp; simp at hp
    | otherExc e => rw [run_otherExc] at hp; simp at hp
    | resp status body jm =>
      by_cases hstat : status = 200
      · subst hstat
        by_cases hb : body = []
        · subst hb; rw [run_200_empty] at hp; simp at hp
        · cases wr with
          | some e => rw [run_200_writeExc sr d t1 t2 fs body jm e hb] at hp; simp at hp
          | none =>
            rw [run_200_success sr d t1 t2 fs body jm hb]
            rfl
      · rw [run_non200 sr d t1 t2 wr fs status body jm hstat] at hp; simp at hp

/-- Witness for C8: the issued request of a successful concrete run. -/
theorem voice_chat_post_contract_witness :
    (voice_chat (some (8000, [0])) ⟨1, 2, none, HttpResult.resp 200 [5] none, none⟩
        ⟨[]⟩).path.isSome = true
    ∧ (voice_chat (some (8000, [0])) ⟨1, 2, none, HttpResult.resp 200 [5] none, none⟩
        ⟨[]⟩).requests
      = [{ url := API_URL, fieldName := "file", filename := "input_" ++ pyStr 1 ++ ".wav",
           contentType := "audio/wav", timeoutSecs := REQUEST_TIMEOUT,
           content := wavEncode 8000 [0] }]
    ∧ REQUEST_TIMEOUT = 300 :=
  ⟨by decide,
   (voice_chat_post_contract 8000 [0] ⟨1, 2, none, HttpResult.resp 200 [5] none, none⟩ ⟨[]⟩
     (by decide)).1,
   (voice_chat_post_contract 8000 [0] ⟨1, 2, none, HttpResult.resp 200 [5] none, none⟩ ⟨[]⟩
     (by decide)).2⟩

/-- C3 fails on the code: the filenames embed `int(time.time())`, so two
submissions within the same integer second generate the SAME output filename
and the second run replaces the bytes of the first (here both runs read the
clock as 7; the first response is byte 9, the second is byte 5, and after the
second run the shared path holds byte 5). -/
theorem voice_chat_same_second_collision :
    (voice_chat (some (8, [0])) ⟨1, 7, none, HttpResult.resp 200 [9] none, none⟩ ⟨[]⟩).path
      = some "/tmp/tts_output_7.wav"
    ∧ (voice_chat (some (8, [0])) ⟨1, 7, none, HttpResult.resp 200 [5] none, none⟩
        (voice_chat (some (8, [0])) ⟨1, 7, none, HttpResult.resp 200 [9] none, none⟩
          ⟨[]⟩).fs).path = some "/tmp/tts_output_7.wav"
    ∧ (voice_chat (some (8, [0])) ⟨1, 7, none, HttpResult.resp 200 [9] none, none⟩
        ⟨[]⟩).fs.read? "/tmp/tts_output_7.wav" = some [9]
    ∧ (voice_chat (some (8, [0])) ⟨1, 7, none, HttpResult.resp 200 [5] none, none⟩
        (voice_chat (some (8, [0])) ⟨1, 7, none, HttpResult.resp 200 [9] none, none⟩
          ⟨[]⟩).fs).fs.read? "/tmp/tts_output_7.wav" = some [5] := by
  refine ⟨?_, ?_, ?_, ?_⟩ <;> decide

/-- C3 (amended): the generated filenames are distinct exactly when the two
submissions observe distinct integer-second clock readings; under distinct
readings the second run does not overwrite the output file of the first (and
distinct input-side readings likewise give distinct input temp files). -/
theorem voice_chat_distinct_seconds_no_overwrite
    (sr1 sr2 : Nat) (d1 d2 : List Int) (env1 env2 : Env) (fs : FS)
    (body1 body2 : List Nat) (jm1 jm2 : Option (Option String))
    (h1 : env1.scipyExc = none) (h2 : env1.http = HttpResult.resp 200 body1 jm1)
    (h3 : body1 ≠ []) (h4 : env1.writeExc = none)
    (h5 : env2.scipyExc = none) (h6 : env2.http = HttpResult.resp 200 body2 jm2)
    (h7 : body2 ≠ []) (h8 : env2.writeExc = none)
    (ht : env1.time2 ≠ env2.time2) :
    output_audio_path env1.time2 ≠ output_audio_path env2.time2
    ∧ (voice_chat (some (sr1, d1)) env1 fs).path = some (output_audio_path env1.time2)
    ∧ (voice_chat (some (sr2, d2)) env2 (voice_chat (some (sr1, d1)) env1 fs).fs).path
        = some (output_audio_path env2.time2)
    ∧ (voice_chat (some (sr2, d2)) env2 (voice_chat (some (sr1, d1)) env1 fs).fs).fs.read?
        (output_audio_path env1.time2) = some body1
    ∧ (voice_chat (some (sr2, d2)) env2 (voice_chat (some (sr1, d1)) env1 fs).fs).fs.read?
        (output_audio_path env2.time2) = some body2
    ∧ (env1.time1 ≠ env2.time1 → audio_path env1.time1 ≠ audio_path env2.time1) := by
  obtain ⟨t1a, t2a, sca, httpa, wra⟩ := env1
  obtain ⟨t1b, t2b, scb, httpb, wrb⟩ := env2
  subst h1; subst h2; subst h4; subst h5; subst h6; subst h8
  have hne : output_audio_path t2a ≠ output_audio_path t2b := by
    intro hc
    exact ht (output_audio_path_inj _ _ hc)
  rw [run_200_success sr1 d1 t1a t2a fs body1 jm1 h3]
  dsimp only
  rw [run_200_success sr2 d2 t1b t2b _ body2 jm2 h7]
  dsimp only
  refine ⟨hne, rfl, rfl, ?_, FS.read_write _ _ _,
    fun hT hc => hT (audio_path_inj _ _ hc)⟩
  rw [FS.read_write_ne _ _ _ _ (Ne.symm hne)]
  rw [FS.read_write_ne _ _ _ _ (audio_path_ne_output_audio_path t1b t2a)]
  exact FS.read_write _ _ _

/-- Witness for the amended C3: clock reads 3 then 4, no overwrite. -/
theorem voice_chat_distinct_seconds_no_overwrite_witness :
    ([9] : List Nat) ≠ [] ∧ ([5] : List Nat) ≠ [] ∧ (3 : Nat) ≠ 4
    ∧ output_audio_path 3 ≠ output_audio_path 4
    ∧ (voice_chat (some (8, [0])) ⟨2, 4, none, HttpResult.resp 200 [5] none, none⟩
        (voice_chat (some (8, [0])) ⟨1, 3, none, HttpResult.resp 200 [9] none, none⟩
          ⟨[]⟩).fs).fs.read? (output_audio_path 3) = some [9]
    ∧ (voice_chat (some (8, [0])) ⟨2, 4, none, HttpResult.resp 200 [5] none, none⟩
        (voice_chat (some (8, [0])) ⟨1, 3, none, HttpResult.resp 200 [9] none, none⟩
          ⟨[]⟩).fs).fs.read? (output_audio_path 4) = some [5] :=
  ⟨by decide, by decide, by decide,
   (voice_chat_distinct_seconds_no_overwrite 8 8 [0] [0]
     ⟨1, 3, none, HttpResult.resp 200 [9] none, none⟩
     ⟨2, 4, none, HttpResult.resp 200 [5] none, none⟩ ⟨[]⟩ [9] [5] none none
     rfl rfl (by decide) rfl rfl rfl (by decide) rfl (by decide)).1,
   (voice_chat_distinct_seconds_no_overwrite 8 8 [0] [0]
     ⟨1, 3, none, HttpResult.resp 200 [9] none, none⟩
     ⟨2, 4, none, HttpResult.resp 200 [5] none, none⟩ ⟨[]⟩ [9] [5] none none
     rfl rfl (by decide) rfl rfl rfl (by decide) rfl (by decide)).2.2.2.1,
   (voice_chat_distinct_seconds_no_overwrite 8 8 [0] [0]
     ⟨1, 3, none, HttpResult.resp 200 [9] none, none⟩
     ⟨2, 4, none, HttpResult.resp 200 [5] none, none⟩ ⟨[]⟩ [9] [5] none none
     rfl rfl (by decide) rfl rfl rfl (by decide) rfl (by decide)).2.2.2.2.1⟩

set_option maxHeartbeats 4000000 in
/-- C9: encoding a capture as a WAV byte stream and reading the stream back
reproduces the sample rate and the sample count, for every rate and sample
list whose header fields fit the 32-bit WAV format. -/
theorem wav_roundtrip (sr : Nat) (xs : List Int)
    (h1 : sr < 4294967296) (h2 : 2 * xs.length < 4294967296) :
    wavDecode (wavEncode sr xs) = some (sr, xs.length) := by
  have hr : readLE32 (wavEncode sr xs) 24
      = sr % 256 + 256 * (sr / 256 % 256) + 65536 * (sr / 65536 % 256)
        + 16777216 * (sr / 16777216 % 256) := rfl
  have hs : readLE32 (wavEncode sr xs) 40
      = 2 * xs.length % 256 + 256 * (2 * xs.length / 256 % 256)
        + 65536 * (2 * xs.length / 65536 % 256)
        + 16777216 * (2 * xs.length / 16777216 % 256) := rfl
  have hlen : 44 ≤ (wavEncode sr xs).length := by
    simp only [wavEncode, le32, le16, List.append_assoc, List.length_append,
      List.length_cons, List.length_nil]
    omega
  unfold wavDecode
  rw [if_pos ⟨hlen, rfl, rfl, rfl, rfl, rfl, rfl, rfl, rfl, rfl, rfl, rfl, rfl⟩, hr, hs]
  have e1 : sr % 256 + 256 * (sr / 256 % 256) + 65536 * (sr / 65536 % 256)
      + 16777216 * (sr / 16777216 % 256) = sr := by omega
  have e2 : 2 * xs.length % 256 + 256 * (2 * xs.length / 256 % 256)
      + 65536 * (2 * xs.length / 65536 % 256)
      + 16777216 * (2 * xs.length / 16777216 % 256) = 2 * xs.length := by omega
  rw [e1, e2]
  have e3 : 2 * xs.length / 2 = xs.length := by omega
  rw [e3]

/-- Witness for C9: a concrete 3-sample capture at 8000 Hz round-trips. -/
theorem wav_roundtrip_witness :
    (8000 : Nat) < 4294967296 ∧ 2 * ([1, -2, 3] : List Int).length < 4294967296
    ∧ wavDecode (wavEncode 8000 [1, -2, 3]) = some (8000, 3) :=
  ⟨by decide, by decide, wav_roundtrip 8000 [1, -2, 3] (by decide) (by decide)⟩
